import Mathlib

/-!
Verification of the RAG (retrieval-augmented generation) core in
`app/services/rag.py`, together with the record shapes it reads from
`app/db/supabase.py`.

Modelling conventions:
* Python floats are modelled as exact rationals (`ℚ`); the similarity values,
  boost factors and thresholds in the source are small decimal constants for
  which the float arithmetic used by the code agrees with exact arithmetic at
  every comparison the code performs (in particular `1500 * 0.7 == 1050.0`
  holds exactly in IEEE double precision).
* Python `Optional[str]` fields are `Option String`; a Python dict key that
  may be absent is an `Option` field defaulting to `none`.
* The external collaborators `generate_query_embedding` and
  `search_similar_chunks` are passed in as `Except`-returning functions, so a
  mock can make either step fail the way the Python functions raise
  `EmbeddingError` / `SupabaseError`.
* `datetime.now().year` is an explicit `current_year` argument.
* `list.sort(key=..., reverse=True)` is a stable descending sort; it is
  modelled by `List.mergeSort`, which is stable, with the order
  `fun a b => adjusted b ≤ adjusted a`.
* The Python scorer mutates each chunk dict in place.  This is modelled by
  explicit state passing: `scorer_post_store` maps the pre-call states of the
  input records to their post-call states, and the list the scorer returns is
  the stable descending sort of exactly those post-call records.
-/

namespace Rag

/-! ## Configuration (`RAG_CONFIG` in `rag.py`) -/

/-- `RAG_CONFIG["similarity_threshold"] = 0.5`. -/
def similarity_threshold_default : ℚ := 1/2

/-- `RAG_CONFIG["max_context_chunks"] = 5`. -/
def max_context_chunks : Nat := 5

/-- `RAG_CONFIG["max_chunk_chars"] = 1500`. -/
def max_chunk_chars : Nat := 1500

/-- `RAG_CONFIG["recency_boost_years"] = 3`. -/
def recency_boost_years : Int := 3

/-- `RAG_CONFIG["recency_boost_factor"] = 1.1`. -/
def recency_boost_factor : ℚ := 11/10

/-- `RAG_CONFIG["section_match_boost"] = 1.15`. -/
def section_match_boost_factor : ℚ := 23/20

/-- The literal `1.05` multiplier for a paper-format match in
`_apply_relevance_scoring`. -/
def paper_match_boost_factor : ℚ := 21/20

/-! ## Data model -/

/-- The `EmbeddingRecord` dataclass of `app/db/supabase.py`, i.e. one row
returned by `search_similar_chunks`. -/
structure EmbeddingRecord where
  id : String
  content : String
  paper_type : String
  «section» : Option String
  year : Option String
  source_file : String
  similarity : ℚ
deriving DecidableEq, Repr

/-- One context-chunk dict as built and consumed inside
`retrieve_relevant_context`.  The first six fields are the keys the code
always writes; the last four model keys that `_apply_relevance_scoring` may
add later (absent = `none`, matching a missing dict key). -/
structure ChunkDict where
  content : String
  paper_type : String
  «section» : Option String
  year : Option String
  source_file : String
  similarity : ℚ
  adjusted_similarity : Option ℚ := none
  recency_boost : Option Bool := none
  «section_match_boost» : Option Bool := none
  paper_match_boost : Option Bool := none
deriving DecidableEq, Repr

/-- Errors that can escape the collaborators or the pipeline body; they model
`EmbeddingError`, `SupabaseError` and the residual `Exception` catch-all. -/
inductive PipeError where
  | embeddingError (msg : String)
  | supabaseError (msg : String)
  | otherError (msg : String)
deriving DecidableEq, Repr

/-- Keyword arguments of one `search_similar_chunks` call as issued by
`retrieve_relevant_context`. -/
structure SearchCall where
  paper_type : String
  «section» : Option String
  limit : Nat
  similarity_threshold : ℚ
deriving DecidableEq, Repr

/-- Type of the embedding collaborator (`generate_query_embedding`). -/
abbrev EmbedFn := String → Except PipeError (List ℚ)

/-- Type of the vector-search collaborator (`search_similar_chunks`). -/
abbrev SearchFn := List ℚ → SearchCall → Except PipeError (List EmbeddingRecord)

/-! ## Python truthiness helpers -/

/-- Python truthiness of an `Optional[str]`: `None` and `""` are falsy. -/
def truthy_str_opt : Option String → Bool
  | none => false
  | some s => decide (s ≠ "")

/-! ## Query builder (`build_rag_query`) -/

/-- The static `difficulty_descriptors` lookup (`dict.get(difficulty, "")`). -/
def difficulty_descriptor (difficulty : String) : String :=
  if difficulty = "foundational" then "basic straightforward accessible"
  else if difficulty = "standard" then "moderate balanced typical"
  else if difficulty = "advanced" then "challenging complex sophisticated"
  else ""

/-- The `parts` contributed by the `paper_format` / `section` branches of
`build_rag_query`. -/
def format_parts (paper_format : String) («section» : Option String) : List String :=
  if paper_format = "paper_1" then
    ["GCE O-Level English Paper 1 Writing examination",
     if «section» = some "section_a" then
       "Section A Editing grammatical errors passage proofreading spelling punctuation verb tense"
     else if «section» = some "section_b" then
       "Section B Situational Writing formal email letter report speech proposal audience purpose register"
     else if «section» = some "section_c" then
       "Section C Continuous Writing composition essay narrative descriptive argumentative expository reflective"
     else "Writing skills grammar situational continuous"]
  else if paper_format = "paper_2" then
    ["GCE O-Level English Paper 2 Comprehension reading",
     if «section» = some "section_a" then
       "Section A Visual Text comprehension advertisement poster infographic inference persuasive technique"
     else if «section» = some "section_b" then
       "Section B Reading Comprehension passage questions inference vocabulary writer\x27s craft language effect"
     else if «section» = some "section_c" then
       "Section C Summary guided comprehension paraphrasing key points own words"
     else "Comprehension inference summary vocabulary analysis"]
  else if paper_format = "oral" then
    ["GCE O-Level English Oral Communication spoken",
     if «section» = some "reading_aloud" then
       "Reading Aloud passage pronunciation fluency expression articulation"
     else if «section» = some "sbc" then
       "Stimulus-Based Conversation discussion visual prompt opinion analysis"
     else if «section» = some "conversation" then
       "General Conversation themes topics personal experience opinion"
     else "Speaking oral reading conversation discussion"]
  else []

/-- The `parts` contributed by the `topics` branch (`if topics:` is Python
truthiness, so `None` and the empty list contribute nothing). -/
def topic_parts (topics : Option (List String)) : List String :=
  match topics with
  | none => []
  | some ts =>
    if ts.isEmpty then []
    else ["Topics and themes: " ++ String.intercalate ", " ts]

/-- The difficulty clause appended unconditionally at the end of
`build_rag_query`. -/
def difficulty_part (difficulty : String) : String :=
  "Difficulty: " ++ difficulty ++ " " ++ difficulty_descriptor difficulty

/-- `build_rag_query` from `rag.py`: compose the parts and join with `" "`. -/
def build_rag_query (paper_format : String) («section» : Option String)
    (topics : Option (List String)) (difficulty : String) : String :=
  String.intercalate " "
    (format_parts paper_format «section» ++ topic_parts topics ++ [difficulty_part difficulty])

/-! ## Relevance scorer (`_apply_relevance_scoring`) -/

/-- Accumulate a base-ten numeral; any non-digit character makes the whole
parse fail, as Python `int()` raises `ValueError`. -/
def py_digits_aux (acc : Nat) : List Char → Option Nat
  | [] => some acc
  | c :: rest =>
    if c.isDigit then py_digits_aux (acc * 10 + (c.toNat - '0'.toNat)) rest
    else none

/-- Python `int(s)` on the year strings the data layer stores: an optional
sign followed by at least one decimal digit; anything else raises
`ValueError`, modelled as `none`. -/
def py_int_of_string (s : String) : Option Int :=
  match s.data with
  | [] => none
  | '-' :: [] => none
  | '-' :: c :: rest => (py_digits_aux 0 (c :: rest)).map (fun n => -(n : Int))
  | '+' :: [] => none
  | '+' :: c :: rest => (py_digits_aux 0 (c :: rest)).map (fun n => (n : Int))
  | l => (py_digits_aux 0 l).map (fun n => (n : Int))

/-- The recency test of the scorer: `year_str` must be truthy, `int(year_str)`
must succeed, and the parsed year must reach the cutoff. -/
def recency_applies (year : Option String) (recency_cutoff : Int) : Bool :=
  match year with
  | none => false
  | some y =>
    if y = "" then false
    else
      match py_int_of_string y with
      | some n => decide (recency_cutoff ≤ n)
      | none => false

/-- The in-place update `_apply_relevance_scoring` performs on one chunk dict:
sequential `adjusted_similarity *= factor` for each boost whose condition
holds (written as a product of conditional factors, equal in exact
arithmetic), the boost flags set for the boosts that fired, and the final
`min(adjusted_similarity, 1.0)` cap. -/
def score_chunk (current_year : Int) (target_section : Option String)
    (target_paper_format : String) (chunk : ChunkDict) : ChunkDict :=
  let hitRecency := recency_applies chunk.year (current_year - recency_boost_years)
  let hitSection := truthy_str_opt target_section && (chunk.«section» == target_section)
  let hitPaper := chunk.paper_type == target_paper_format
  let adjusted :=
    chunk.similarity
      * (if hitRecency then recency_boost_factor else 1)
      * (if hitSection then section_match_boost_factor else 1)
      * (if hitPaper then paper_match_boost_factor else 1)
  { chunk with
    adjusted_similarity := some (min adjusted 1)
    recency_boost := if hitRecency then some true else chunk.recency_boost
    «section_match_boost» := if hitSection then some true else chunk.«section_match_boost»
    paper_match_boost := if hitPaper then some true else chunk.paper_match_boost }

/-- The `adjusted_similarity` the sort key reads (`x["adjusted_similarity"]`;
the key is always present after scoring, `getD 0` only totalises). -/
def adj_of (c : ChunkDict) : ℚ := c.adjusted_similarity.getD 0

/-- Post-call states of the input records of `_apply_relevance_scoring`: the
Python function mutates each input dict in place, so after the call the i-th
input record holds `score_chunk` of its pre-call state. -/
def scorer_post_store (current_year : Int) (chunks : List ChunkDict)
    (target_section : Option String) (target_paper_format : String) : List ChunkDict :=
  chunks.map (score_chunk current_year target_section target_paper_format)

/-- The comparison realised by `sort(key=lambda x: x["adjusted_similarity"],
reverse=True)`: `a` may come before `b` iff the adjusted similarity of `b`
does not exceed that of `a`. -/
def sort_le (a b : ChunkDict) : Bool := decide (adj_of b ≤ adj_of a)

/-- `_apply_relevance_scoring`: score every chunk, then
`scored_chunks.sort(key=lambda x: x["adjusted_similarity"], reverse=True)`,
a stable descending sort (modelled by the stable `List.mergeSort`). -/
def apply_relevance_scoring (current_year : Int) (chunks : List ChunkDict)
    (target_section : Option String) (target_paper_format : String) : List ChunkDict :=
  (scorer_post_store current_year chunks target_section target_paper_format).mergeSort sort_le

/-! ## Retrieval orchestrator (`retrieve_relevant_context`) -/

/-- The deduplication key `(r.source_file, hash(r.content[:100]))`.  The hash
of the first hundred characters is modelled injectively by the prefix itself:
the code only ever compares keys for equality. -/
def dedup_key (r : EmbeddingRecord) : String × String :=
  (r.source_file, r.content.take 100)

/-- The merge loop of strategies 2 and 3:
`for r in incoming: if key not in seen: results.append(r); seen.add(key)`. -/
def merge_dedup_loop (acc : List EmbeddingRecord) (seen : List (String × String)) :
    List EmbeddingRecord → List EmbeddingRecord
  | [] => acc
  | r :: rest =>
    if dedup_key r ∈ seen then merge_dedup_loop acc seen rest
    else merge_dedup_loop (acc ++ [r]) (dedup_key r :: seen) rest

/-- Merge `incoming` into `results`, starting from
`seen = {(r.source_file, hash(r.content[:100])) for r in results}`. -/
def merge_dedup (results incoming : List EmbeddingRecord) : List EmbeddingRecord :=
  merge_dedup_loop results (results.map dedup_key) incoming

/-- Strategy 3 of the search ladder: if the accumulated results still
under-fill, search once more with no section filter at threshold
`similarity_threshold * 0.7` and merge. -/
def strategy_three (search : SearchFn) (emb : List ℚ) (paper_format : String)
    (limit : Nat) (candidate_limit : Nat) (similarity_threshold : ℚ)
    (results : List EmbeddingRecord) : Except PipeError (List EmbeddingRecord) :=
  if results.length < limit then
    match search emb
      { paper_type := paper_format, «section» := none,
        limit := candidate_limit, similarity_threshold := similarity_threshold * (7/10) } with
    | .error e => .error e
    | .ok fallback => .ok (merge_dedup results fallback)
  else .ok results

/-- The three-strategy candidate search inside the `try` block of
`retrieve_relevant_context` (after the embedding has been obtained). -/
def retrieve_candidates (search : SearchFn) (emb : List ℚ) (paper_format : String)
    («section» : Option String) (limit : Nat) (similarity_threshold : ℚ) :
    Except PipeError (List EmbeddingRecord) :=
  let candidate_limit := limit * 2
  match search emb
    { paper_type := paper_format, «section» := «section»,
      limit := candidate_limit, similarity_threshold := similarity_threshold } with
  | .error e => .error e
  | .ok resultsA =>
    if resultsA.length < limit && truthy_str_opt «section» then
      match search emb
        { paper_type := paper_format, «section» := none,
          limit := candidate_limit, similarity_threshold := similarity_threshold } with
      | .error e => .error e
      | .ok broader =>
        strategy_three search emb paper_format limit candidate_limit similarity_threshold
          (merge_dedup resultsA broader)
    else
      strategy_three search emb paper_format limit candidate_limit similarity_threshold
        resultsA

/-- Conversion of one `EmbeddingRecord` to the context-chunk dict
(`context_chunks.append({...})` in the source). -/
def record_to_chunk (r : EmbeddingRecord) : ChunkDict :=
  { content := r.content, paper_type := r.paper_type, «section» := r.«section»,
    year := r.year, source_file := r.source_file, similarity := r.similarity }

/-- The body of the `try` block of `retrieve_relevant_context`: build the
query, embed it, run the strategy ladder, convert, score, take the top
`limit`.  Any collaborator failure propagates as `Except.error`. -/
def retrieve_body (embed : EmbedFn) (search : SearchFn) (current_year : Int)
    (paper_format : String) («section» : Option String) (topics : Option (List String))
    (difficulty : String) (limit : Nat) (similarity_threshold : ℚ) :
    Except PipeError (List ChunkDict) :=
  let query := build_rag_query paper_format «section» topics difficulty
  match embed query with
  | .error e => .error e
  | .ok emb =>
    match retrieve_candidates search emb paper_format «section» limit similarity_threshold with
    | .error e => .error e
    | .ok results =>
      let context_chunks := results.map record_to_chunk
      let scored := apply_relevance_scoring current_year context_chunks «section» paper_format
      .ok (scored.take limit)

/-- `limit = limit or RAG_CONFIG["max_context_chunks"]`: `None` and `0` are
falsy and replaced by the default. -/
def effective_limit : Option Nat → Nat
  | none => max_context_chunks
  | some n => if n = 0 then max_context_chunks else n

/-- `similarity_threshold = similarity_threshold or
RAG_CONFIG["similarity_threshold"]`: `None` and `0.0` are falsy. -/
def effective_threshold : Option ℚ → ℚ
  | none => similarity_threshold_default
  | some q => if q = 0 then similarity_threshold_default else q

/-- `retrieve_relevant_context`: default the per-call overrides, run the
pipeline body, and catch every raised error (`EmbeddingError`,
`SupabaseError`, and the residual `Exception` handler) as `[]`. -/
def retrieve_relevant_context (embed : EmbedFn) (search : SearchFn) (current_year : Int)
    (paper_format : String) («section» : Option String) (topics : Option (List String))
    (difficulty : String) (limit : Option Nat) (similarity_threshold : Option ℚ) :
    List ChunkDict :=
  match retrieve_body embed search current_year paper_format «section» topics difficulty
      (effective_limit limit) (effective_threshold similarity_threshold) with
  | .ok chunks => chunks
  | .error _ => []

/-! ## Context formatter: content truncation (`format_rag_context`) -/

/-- Index of the last `'.'` in the list, Python `str.rfind(".")` style
(`none` models the `-1` result). -/
def rfind_dot : List Char → Option Nat
  | [] => none
  | c :: rest =>
    match rfind_dot rest with
    | some i => some (i + 1)
    | none => if c = '.' then some 0 else none

/-- `truncated.rfind(".")` as an integer, `-1` when absent. -/
def last_period_index (l : List Char) : Int :=
  match rfind_dot l with
  | some i => (i : Int)
  | none => -1

/-- `max_chars * 0.7` of the source: with `max_chars = 1500` the IEEE-double
product is exactly `1050.0`, so the guard `last_period > max_chars * 0.7` is
the integer comparison against `1050`. -/
def truncation_guard_chars : Int := 1050

/-- The per-chunk content truncation of `format_rag_context`: over-budget
content is cut to `max_chunk_chars`, re-cut just past the last period when
that period lies beyond 70 percent of the budget, and suffixed with
`"..."`; content within budget is emitted unchanged. -/
def truncate_chunk_content (content : List Char) : List Char :=
  if max_chunk_chars < content.length then
    (if truncation_guard_chars < last_period_index (content.take max_chunk_chars) then
      (content.take max_chunk_chars).take
        ((last_period_index (content.take max_chunk_chars)).toNat + 1)
    else content.take max_chunk_chars) ++ ['.', '.', '.']
  else content

/-! ## Specification-side definitions

These follow the wording of the specification (not the source) and exist to
be compared with the source-derived definitions above. -/

/-- Modelled from the spec wording of the merge step: each merge appends only
records whose key has not been seen in the accumulated results. -/
def merge_dedup_spec (acc : List EmbeddingRecord) : List EmbeddingRecord → List EmbeddingRecord
  | [] => acc
  | r :: rest =>
    if dedup_key r ∈ acc.map dedup_key then merge_dedup_spec acc rest
    else merge_dedup_spec (acc ++ [r]) rest

/-- Modelled from the spec wording of Strategy C: only if still under-filled,
repeat with `section = null` and threshold `similarity_threshold × 0.7`,
then merge and deduplicate. -/
def strategy_three_spec (search : SearchFn) (emb : List ℚ) (paper_format : String)
    (limit : Nat) (similarity_threshold : ℚ) (results : List EmbeddingRecord) :
    Except PipeError (List EmbeddingRecord) :=
  if results.length < limit then
    match search emb
      { paper_type := paper_format, «section» := none,
        limit := 2 * limit, similarity_threshold := similarity_threshold * (7/10) } with
    | .error e => .error e
    | .ok lowered => .ok (merge_dedup_spec results lowered)
  else .ok results

/-- Modelled from the spec wording of the fallback ladder: Strategy A with the
given filters at candidate limit `2 × limit`; Strategy B only if `section`
is non-null and the accumulated results under-fill, with `section = null` at
the same threshold; Strategy C only if still under-filled, with
`section = null` and threshold `similarity_threshold × 0.7`; merges
deduplicated by `(source_file, hash(content[:100]))`. -/
def fallback_ladder_spec (search : SearchFn) (emb : List ℚ) (paper_format : String)
    («section» : Option String) (limit : Nat) (similarity_threshold : ℚ) :
    Except PipeError (List EmbeddingRecord) :=
  match search emb
    { paper_type := paper_format, «section» := «section»,
      limit := 2 * limit, similarity_threshold := similarity_threshold } with
  | .error e => .error e
  | .ok resultsA =>
    if «section» ≠ none ∧ resultsA.length < limit then
      match search emb
        { paper_type := paper_format, «section» := none,
          limit := 2 * limit, similarity_threshold := similarity_threshold } with
      | .error e => .error e
      | .ok broader =>
        strategy_three_spec search emb paper_format limit similarity_threshold
          (merge_dedup_spec resultsA broader)
    else
      strategy_three_spec search emb paper_format limit similarity_threshold resultsA

/-- The recency condition as the spec words it: the year field parses as an
integer that is at least `current_year - 3`; missing or non-numeric years
never qualify. -/
def year_parses_recent (year : Option String) (current_year : Int) : Bool :=
  match year with
  | none => false
  | some y =>
    match py_int_of_string y with
    | some n => decide (current_year - 3 ≤ n)
    | none => false

/-! ## Concrete fixtures for witnesses and counterexamples -/

/-- A mock embedding client that always succeeds. -/
def ok_embed : EmbedFn := fun _ => Except.ok [1]

/-- A mock embedding client that always raises `EmbeddingError`. -/
def fail_embed : EmbedFn := fun _ => Except.error (PipeError.embeddingError "provider down")

/-- An older candidate record with the higher raw similarity. -/
def rec_old : EmbeddingRecord :=
  { id := "1", content := "alpha text", paper_type := "paper_x", «section» := some "section_b",
    year := some "2015", source_file := "f1", similarity := 3/5 }

/-- A recent candidate record with the lower raw similarity. -/
def rec_recent : EmbeddingRecord :=
  { id := "2", content := "beta text", paper_type := "paper_x", «section» := some "section_b",
    year := some "2025", source_file := "f2", similarity := 29/50 }

/-- A mock vector search that returns the same two candidates for any call. -/
def two_hit_search : SearchFn := fun _ _ => Except.ok [rec_old, rec_recent]

/-- A section-filtered record for the ladder witness. -/
def rec_a : EmbeddingRecord :=
  { id := "a", content := "editing passage", paper_type := "paper_1", «section» := some "section_a",
    year := some "2023", source_file := "fa", similarity := 7/10 }

/-- A broader record for the ladder witness. -/
def rec_b : EmbeddingRecord :=
  { id := "b", content := "situational letter", paper_type := "paper_1", «section» := some "section_b",
    year := some "2022", source_file := "fb", similarity := 13/20 }

/-- Another broader record for the ladder witness. -/
def rec_c : EmbeddingRecord :=
  { id := "c", content := "continuous essay", paper_type := "paper_1", «section» := some "section_c",
    year := some "2021", source_file := "fc", similarity := 3/5 }

/-- A mock vector search that honours the section filter: one hit with the
exact section, three hits without it. -/
def ladder_search : SearchFn := fun _ call =>
  Except.ok (if call.«section» = some "section_a" then [rec_a] else [rec_a, rec_b, rec_c])

/-- A chunk with every scoring boost applicable. -/
def chunk_boosted : ChunkDict :=
  { content := "editing passage", paper_type := "paper_1", «section» := some "section_a",
    year := some "2024", source_file := "f", similarity := 1/2 }

/-- A chunk whose section is the empty string, for the truthiness edge of the
section-match boost. -/
def chunk_empty_section : ChunkDict :=
  { content := "x", paper_type := "q", «section» := some "", year := none,
    source_file := "f", similarity := 1/2 }

/-- First of two boost-free chunks that tie on adjusted similarity. -/
def chunk_tie_one : ChunkDict :=
  { content := "first tied", paper_type := "px", «section» := none, year := none,
    source_file := "t1", similarity := 1/3 }

/-- Second of two boost-free chunks that tie on adjusted similarity. -/
def chunk_tie_two : ChunkDict :=
  { content := "second tied", paper_type := "px", «section» := none, year := none,
    source_file := "t2", similarity := 1/3 }

/-- A 1501-character content with no period, for the hard-truncation witness. -/
def long_content : List Char := List.replicate 1501 'a'

/-! ## Helper lemmas -/

theorem score_chunk_adjusted (cy : Int) (ts : Option String) (tf : String) (c : ChunkDict) :
    (score_chunk cy ts tf c).adjusted_similarity =
      some (min (c.similarity
        * (if recency_applies c.year (cy - recency_boost_years) then recency_boost_factor else 1)
        * (if truthy_str_opt ts && (c.«section» == ts) then section_match_boost_factor else 1)
        * (if c.paper_type == tf then paper_match_boost_factor else 1)) 1) := rfl

theorem sort_le_trans : ∀ a b c : ChunkDict, sort_le a b → sort_le b c → sort_le a c := by
  intro a b c hab hbc
  simp only [sort_le, decide_eq_true_eq] at *
  exact le_trans hbc hab

theorem sort_le_total : ∀ a b : ChunkDict, sort_le a b || sort_le b a := by
  intro a b
  simp only [sort_le, Bool.or_eq_true, decide_eq_true_eq]
  exact le_total (adj_of b) (adj_of a)

theorem scoring_pairwise (cy : Int) (chunks : List ChunkDict) (ts : Option String)
    (tf : String) :
    List.Pairwise (fun a b => adj_of b ≤ adj_of a) (apply_relevance_scoring cy chunks ts tf) :=
  (List.sorted_mergeSort sort_le_trans sort_le_total _).imp
    (fun h => by simpa [sort_le] using h)

theorem retrieve_body_ok_shape (embed : EmbedFn) (search : SearchFn) (cy : Int)
    (pf : String) (sec : Option String) (topics : Option (List String)) (diff : String)
    (lim : Nat) (thr : ℚ) (out : List ChunkDict)
    (h : retrieve_body embed search cy pf sec topics diff lim thr = Except.ok out) :
    ∃ recs : List EmbeddingRecord,
      out = (apply_relevance_scoring cy (recs.map record_to_chunk) sec pf).take lim := by
  cases he : embed (build_rag_query pf sec topics diff) with
  | error e => rw [retrieve_body, he] at h; exact absurd h (by simp)
  | ok emb =>
    cases hc : retrieve_candidates search emb pf sec lim thr with
    | error e => rw [retrieve_body, he] at h; simp only [hc] at h; exact absurd h (by simp)
    | ok recs =>
      rw [retrieve_body, he] at h
      simp only [hc] at h
      exact ⟨recs, by injection h with h2; exact h2.symm⟩

theorem merge_dedup_loop_eq_spec :
    ∀ (incoming acc : List EmbeddingRecord) (seen : List (String × String)),
      (∀ k, k ∈ seen ↔ k ∈ acc.map dedup_key) →
      merge_dedup_loop acc seen incoming = merge_dedup_spec acc incoming
  | [], acc, seen, _ => rfl
  | r :: rest, acc, seen, h => by
    rw [merge_dedup_loop, merge_dedup_spec]
    by_cases hk : dedup_key r ∈ acc.map dedup_key
    · rw [if_pos ((h _).mpr hk), if_pos hk]
      exact merge_dedup_loop_eq_spec rest acc seen h
    · rw [if_neg (fun hm => hk ((h _).mp hm)), if_neg hk]
      refine merge_dedup_loop_eq_spec rest (acc ++ [r]) (dedup_key r :: seen) fun k => ?_
      rw [List.mem_cons, h k, List.map_append, List.mem_append]
      simp [or_comm]

theorem merge_dedup_eq_spec (acc incoming : List EmbeddingRecord) :
    merge_dedup acc incoming = merge_dedup_spec acc incoming :=
  merge_dedup_loop_eq_spec incoming acc _ fun _ => Iff.rfl

theorem strategy_three_eq (search : SearchFn) (emb : List ℚ) (pf : String)
    (lim : Nat) (thr : ℚ) (results : List EmbeddingRecord) :
    strategy_three search emb pf lim (lim * 2) thr results =
      strategy_three_spec search emb pf lim thr results := by
  simp only [strategy_three, strategy_three_spec]
  rw [Nat.mul_comm 2 lim]
  split
  · cases hs : search emb
      { paper_type := pf, «section» := none, limit := lim * 2,
        similarity_threshold := thr * (7/10) } with
    | error e => rfl
    | ok lowered => dsimp only; rw [merge_dedup_eq_spec]
  · rfl

theorem rfind_dot_none : ∀ (l : List Char), rfind_dot l = none →
    ∀ j : Nat, l[j]? ≠ some '.'
  | [], _, j => by simp
  | c :: rest, h, j => by
    rw [rfind_dot] at h
    cases hr : rfind_dot rest with
    | some i => rw [hr] at h; cases h
    | none =>
      rw [hr] at h
      by_cases hc : c = '.'
      · rw [if_pos hc] at h; cases h
      · cases j with
        | zero => simp [hc]
        | succ j2 =>
          rw [List.getElem?_cons_succ]
          exact rfind_dot_none rest hr j2

theorem rfind_dot_mem : ∀ (l : List Char) (i : Nat), rfind_dot l = some i →
    l[i]? = some '.' ∧ ∀ j, i < j → l[j]? ≠ some '.'
  | [], i, h => by cases h
  | c :: rest, i, h => by
    rw [rfind_dot] at h
    cases hr : rfind_dot rest with
    | some i2 =>
      rw [hr] at h
      injection h with h2
      subst h2
      obtain ⟨h1, hmax⟩ := rfind_dot_mem rest i2 hr
      refine ⟨by simpa using h1, fun j hj => ?_⟩
      cases j with
      | zero => omega
      | succ j2 =>
        rw [List.getElem?_cons_succ]
        exact hmax j2 (by omega)
    | none =>
      rw [hr] at h
      by_cases hc : c = '.'
      · rw [if_pos hc] at h
        injection h with h2
        subst h2
        refine ⟨by simpa using hc, fun j hj => ?_⟩
        cases j with
        | zero => omega
        | succ j2 =>
          rw [List.getElem?_cons_succ]
          exact rfind_dot_none rest hr j2
      · rw [if_neg hc] at h; cases h

theorem rfind_dot_eq_some : ∀ (l : List Char) (i : Nat),
    l[i]? = some '.' → (∀ j, i < j → l[j]? ≠ some '.') → rfind_dot l = some i
  | [], i, h, _ => by simp at h
  | c :: rest, i, h, hmax => by
    rw [rfind_dot]
    cases hr : rfind_dot rest with
    | some i2 =>
      obtain ⟨h1, h2⟩ := rfind_dot_mem rest i2 hr
      cases i with
      | zero => exact absurd (by simpa using h1) (hmax (i2 + 1) (Nat.succ_pos _))
      | succ i0 =>
        have ha : ¬ i2 < i0 := fun hlt => h2 i0 hlt (by simpa using h)
        have hb : ¬ i0 < i2 := fun hlt => hmax (i2 + 1) (by omega) (by simpa using h1)
        have hi : i2 = i0 := by omega
        subst hi
        rfl
    | none =>
      cases i with
      | zero =>
        have hc : c = '.' := by simpa using h
        rw [if_pos hc]
      | succ i0 =>
        exact absurd (by simpa using h) (rfind_dot_none rest hr i0)

theorem recency_eq (y : Option String) (cy : Int) :
    recency_applies y (cy - recency_boost_years) = year_parses_recent y cy := by
  rcases y with _ | s
  · rfl
  · by_cases hs : s = ""
    · subst hs
      rfl
    · simp only [recency_applies, year_parses_recent, if_neg hs]
      cases hp : py_int_of_string s <;> simp [hp, recency_boost_years]

/-! ## Claim theorems -/

/-- C10: passing `limit = 0` or `similarity_threshold = 0.0` to
`retrieve_relevant_context` silently falls back to the config defaults
(`limit` becomes 5, threshold becomes 0.5); the effective limit and
threshold can never be zero. -/
theorem falsy_overrides_replaced_by_defaults :
    (∀ (embed : EmbedFn) (search : SearchFn) (cy : Int) (pf : String) (sec : Option String)
        (topics : Option (List String)) (diff : String) (thr : Option ℚ),
      retrieve_relevant_context embed search cy pf sec topics diff (some 0) thr =
        retrieve_relevant_context embed search cy pf sec topics diff
          (some max_context_chunks) thr)
  ∧ (∀ (embed : EmbedFn) (search : SearchFn) (cy : Int) (pf : String) (sec : Option String)
        (topics : Option (List String)) (diff : String) (lim : Option Nat),
      retrieve_relevant_context embed search cy pf sec topics diff lim (some 0) =
        retrieve_relevant_context embed search cy pf sec topics diff lim
          (some similarity_threshold_default))
  ∧ effective_limit (some 0) = 5
  ∧ effective_threshold (some 0) = 1/2
  ∧ (∀ l : Option Nat, effective_limit l ≠ 0)
  ∧ (∀ q : Option ℚ, effective_threshold q ≠ 0) := by
  refine ⟨fun _ _ _ _ _ _ _ _ => rfl, fun _ _ _ _ _ _ _ _ => ?_, rfl, ?_, ?_, ?_⟩
  · rw [retrieve_relevant_context, retrieve_relevant_context]
    norm_num [effective_threshold]
  · norm_num [effective_threshold, similarity_threshold_default]
  · intro l
    rcases l with _ | n
    · norm_num [effective_limit, max_context_chunks]
    · rw [effective_limit]
      split
      · norm_num [max_context_chunks]
      · assumption
  · intro q
    rcases q with _ | x
    · norm_num [effective_threshold, similarity_threshold_default]
    · rw [effective_threshold]
      split
      · norm_num [similarity_threshold_default]
      · assumption

/-- C2: whenever the pipeline body fails — embedding error, search error, or
any other error — `retrieve_relevant_context` returns `[]` instead of
propagating the failure; no input makes it raise. -/
theorem retrieve_returns_nil_on_pipeline_error (embed : EmbedFn) (search : SearchFn)
    (cy : Int) (pf : String) (sec : Option String) (topics : Option (List String))
    (diff : String) (lim : Option Nat) (thr : Option ℚ) (e : PipeError)
    (h : retrieve_body embed search cy pf sec topics diff
      (effective_limit lim) (effective_threshold thr) = Except.error e) :
    retrieve_relevant_context embed search cy pf sec topics diff lim thr = [] := by
  rw [retrieve_relevant_context, h]

/-- Witness for C2: a fully failing retrieval (the embedding client raises)
returns the empty list. -/
theorem retrieve_returns_nil_on_pipeline_error_witness :
    retrieve_relevant_context fail_embed two_hit_search 2025 "paper_1" none none
      "standard" none none = [] :=
  retrieve_returns_nil_on_pipeline_error fail_embed two_hit_search 2025 "paper_1" none none
    "standard" none none (PipeError.embeddingError "provider down") rfl

/-- C9 counterexample: the relevance scorer does not leave its input records
unchanged — after the call the record passed in has gained an
`adjusted_similarity` entry (and boost flags), because the Python code
mutates the chunk dicts in place. -/
theorem scorer_mutates_input_records :
    scorer_post_store 2025 [chunk_boosted] (some "section_a") "paper_1" ≠ [chunk_boosted] := by
  intro h
  have h1 := congrArg (fun l => (l.headD chunk_boosted).adjusted_similarity) h
  simp only [scorer_post_store, List.map_cons, List.map_nil, List.headD_cons,
    score_chunk_adjusted] at h1
  exact absurd h1 (by simp [chunk_boosted])

set_option maxRecDepth 8000 in
unseal Rat.mul Rat.inv List.merge List.mergeSort in
/-- C1 counterexample: with a vector search returning an older high-similarity
record and a recent slightly-lower one, the recency boost reorders them, so
the returned list is not sorted by raw similarity descending. -/
theorem retrieve_not_sorted_by_raw_similarity :
    ¬ List.Pairwise (fun a b : ChunkDict => b.similarity ≤ a.similarity)
      (retrieve_relevant_context ok_embed two_hit_search 2025 "paper_1" (some "section_a") none
        "standard" none none) := by
  decide

/-- C1 amended: every `retrieve_relevant_context` result has length at most
the effective limit (the passed limit with falsy values defaulted) and is
sorted by adjusted similarity descending. -/
theorem retrieve_len_bounded_sorted_adjusted (embed : EmbedFn) (search : SearchFn)
    (cy : Int) (pf : String) (sec : Option String) (topics : Option (List String))
    (diff : String) (lim : Option Nat) (thr : Option ℚ) :
    (retrieve_relevant_context embed search cy pf sec topics diff lim thr).length
        ≤ effective_limit lim
  ∧ List.Pairwise (fun a b => adj_of b ≤ adj_of a)
      (retrieve_relevant_context embed search cy pf sec topics diff lim thr) := by
  rcases hb : retrieve_body embed search cy pf sec topics diff
      (effective_limit lim) (effective_threshold thr) with e | out
  · rw [retrieve_relevant_context, hb]
    exact ⟨Nat.zero_le _, List.Pairwise.nil⟩
  · obtain ⟨recs, rfl⟩ := retrieve_body_ok_shape _ _ _ _ _ _ _ _ _ _ hb
    rw [retrieve_relevant_context, hb]
    constructor
    · exact List.length_take_le _ _
    · exact List.Pairwise.sublist (List.take_sublist _ _)
        (scoring_pairwise cy (recs.map record_to_chunk) sec pf)

/-- C5: if every input chunk has raw similarity in `[0, 1]`, then every chunk
produced by the relevance scorer has adjusted similarity in `[0, 1]`; the
final cap keeps any combination of boosts from exceeding `1`. -/
theorem scoring_adjusted_similarity_clamped (cy : Int) (chunks : List ChunkDict)
    (ts : Option String) (tf : String)
    (h : ∀ c ∈ chunks, 0 ≤ c.similarity ∧ c.similarity ≤ 1) :
    ∀ d ∈ apply_relevance_scoring cy chunks ts tf, 0 ≤ adj_of d ∧ adj_of d ≤ 1 := by
  intro d hd
  rw [apply_relevance_scoring, List.mem_mergeSort, scorer_post_store] at hd
  obtain ⟨c, hc, rfl⟩ := List.mem_map.mp hd
  constructor
  · rw [adj_of, score_chunk_adjusted, Option.getD_some]
    refine le_min ?_ zero_le_one
    refine mul_nonneg (mul_nonneg (mul_nonneg (h c hc).1 ?_) ?_) ?_ <;> split <;>
      norm_num [recency_boost_factor, section_match_boost_factor, paper_match_boost_factor]
  · rw [adj_of, score_chunk_adjusted, Option.getD_some]
    exact min_le_right _ _

/-- Witness for C5: a fully boosted chunk of raw similarity `1/2` scores
within `[0, 1]`. -/
theorem scoring_adjusted_similarity_clamped_witness :
    0 ≤ adj_of (score_chunk 2025 (some "section_a") "paper_1" chunk_boosted)
  ∧ adj_of (score_chunk 2025 (some "section_a") "paper_1" chunk_boosted) ≤ 1 :=
  scoring_adjusted_similarity_clamped 2025 [chunk_boosted] (some "section_a") "paper_1"
    (by
      intro c hc
      rw [List.mem_singleton] at hc
      subst hc
      constructor <;> norm_num [chunk_boosted])
    _ (by simp [apply_relevance_scoring, scorer_post_store])

unseal Rat.mul Rat.inv in
/-- C4 counterexample: a target section equal to the empty string is non-null,
and a chunk whose section is also the empty string matches it, yet the code
applies no `×1.15` boost because Python truthiness treats `""` as unset. -/
theorem score_chunk_empty_target_section_counterexample :
    ¬ ((score_chunk 2025 (some "") "p" chunk_empty_section).adjusted_similarity =
      some (min (chunk_empty_section.similarity
        * (if year_parses_recent chunk_empty_section.year 2025 then recency_boost_factor else 1)
        * (if (some "" : Option String) ≠ none ∧ chunk_empty_section.«section» = some ""
            then section_match_boost_factor else 1)
        * (if chunk_empty_section.paper_type = "p" then paper_match_boost_factor else 1)) 1)) := by
  decide

/-- C4 amended: for every chunk, provided the target section is not the empty
string, the adjusted similarity before the final cap is the raw similarity
times exactly the boosts whose conditions hold: `×1.1` iff the year parses as
an integer at least `current_year − 3` (missing or non-numeric year: no boost,
no error), `×1.15` iff the target section is non-null (and, forced by the
counterexample, non-empty) and equals the chunk section, `×1.05` iff the
chunk paper type equals the target paper format; the boosts compose
multiplicatively and independently. -/
theorem score_chunk_boost_composition (cy : Int) (ts : Option String) (tf : String)
    (c : ChunkDict) (hts : ∀ s, ts = some s → s ≠ "") :
    (score_chunk cy ts tf c).adjusted_similarity =
      some (min (c.similarity
        * (if year_parses_recent c.year cy then recency_boost_factor else 1)
        * (if ts ≠ none ∧ c.«section» = ts then section_match_boost_factor else 1)
        * (if c.paper_type = tf then paper_match_boost_factor else 1)) 1) := by
  rw [score_chunk_adjusted, recency_eq]
  have h2 : (truthy_str_opt ts && (c.«section» == ts)) = true ↔ (ts ≠ none ∧ c.«section» = ts) := by
    rcases ts with _ | s
    · simp [truthy_str_opt]
    · have hs : s ≠ "" := hts s rfl
      simp [truthy_str_opt, hs]
  have h3 : (c.paper_type == tf) = true ↔ c.paper_type = tf := beq_iff_eq
  rw [if_congr h2 rfl rfl, if_congr h3 rfl rfl]

/-- Witness for C4: a chunk earning all three boosts under a non-empty target
section satisfies the boost-composition formula. -/
theorem score_chunk_boost_composition_witness :
    (score_chunk 2025 (some "section_a") "paper_1" chunk_boosted).adjusted_similarity =
      some (min (chunk_boosted.similarity
        * (if year_parses_recent chunk_boosted.year 2025 then recency_boost_factor else 1)
        * (if (some "section_a" : Option String) ≠ none ∧
              chunk_boosted.«section» = some "section_a"
            then section_match_boost_factor else 1)
        * (if chunk_boosted.paper_type = "paper_1" then paper_match_boost_factor else 1)) 1) :=
  score_chunk_boost_composition 2025 (some "section_a") "paper_1" chunk_boosted
    (by intro s hs; simp only [Option.some.injEq] at hs; subst hs; decide)

/-- C6: the scorer output is sorted by adjusted similarity descending, is a
permutation of the scored inputs, and breaks ties by original input order
(a tied pair that is a sublist of the scored inputs stays a sublist of the
output). -/
theorem scoring_sorted_descending_stable (cy : Int) (chunks : List ChunkDict)
    (ts : Option String) (tf : String) :
    List.Pairwise (fun a b => adj_of b ≤ adj_of a) (apply_relevance_scoring cy chunks ts tf)
  ∧ (apply_relevance_scoring cy chunks ts tf).Perm (scorer_post_store cy chunks ts tf)
  ∧ ∀ a b : ChunkDict, adj_of a = adj_of b →
      [a, b].Sublist (scorer_post_store cy chunks ts tf) →
      [a, b].Sublist (apply_relevance_scoring cy chunks ts tf) := by
  refine ⟨scoring_pairwise cy chunks ts tf, List.mergeSort_perm _ _, ?_⟩
  intro a b heq hsub
  exact List.pair_sublist_mergeSort sort_le_trans sort_le_total
    (by simp only [sort_le, decide_eq_true_eq]; exact heq.ge) hsub

/-- Witness for C6: two boost-free chunks with equal raw similarity keep
their input order in the scorer output. -/
theorem scoring_sorted_descending_stable_witness :
    [score_chunk 2025 none "paper_1" chunk_tie_one,
     score_chunk 2025 none "paper_1" chunk_tie_two].Sublist
      (apply_relevance_scoring 2025 [chunk_tie_one, chunk_tie_two] none "paper_1") :=
  (scoring_sorted_descending_stable 2025 [chunk_tie_one, chunk_tie_two] none "paper_1").2.2 _ _
    rfl (List.Sublist.refl _)

/-- C3: for a target section that is not the empty string, the candidate
search of `retrieve_relevant_context` coincides with the fallback ladder as
the spec words it: Strategy A with the exact filters at candidate limit
`2 × limit`; Strategy B only when a section was specified and results
under-fill, with `section = null` at the same threshold; Strategy C only
when still under-filled, with `section = null` and threshold `× 0.7`; merges
append only records whose `(source_file, hash(content[:100]))` key is
unseen. -/
theorem retrieve_candidates_eq_fallback_ladder (search : SearchFn) (emb : List ℚ)
    (pf : String) (sec : Option String) (lim : Nat) (thr : ℚ)
    (hsec : ∀ s, sec = some s → s ≠ "") :
    retrieve_candidates search emb pf sec lim thr =
      fallback_ladder_spec search emb pf sec lim thr := by
  simp only [retrieve_candidates, fallback_ladder_spec]
  rw [Nat.mul_comm 2 lim]
  cases hA : search emb
      { paper_type := pf, «section» := sec, limit := lim * 2,
        similarity_threshold := thr } with
  | error e => rfl
  | ok resultsA =>
    dsimp only
    have hcond : (resultsA.length < lim && truthy_str_opt sec) = true ↔
        (sec ≠ none ∧ resultsA.length < lim) := by
      rcases sec with _ | s
      · simp [truthy_str_opt]
      · have hs := hsec s rfl
        simp [truthy_str_opt, hs, and_comm]
    by_cases hB : sec ≠ none ∧ resultsA.length < lim
    · rw [if_pos (hcond.mpr hB), if_pos hB]
      cases hBs : search emb
          { paper_type := pf, «section» := none, limit := lim * 2,
            similarity_threshold := thr } with
      | error e => rfl
      | ok broader =>
        dsimp only
        rw [merge_dedup_eq_spec]
        exact strategy_three_eq search emb pf lim thr _
    · rw [if_neg (fun hr => hB (hcond.mp hr)), if_neg hB]
      exact strategy_three_eq search emb pf lim thr resultsA

set_option maxRecDepth 8000 in
unseal Rat.mul Rat.inv in
/-- Witness for C3: with a mock search returning one exact-section hit and
three broadened hits at limit 5, the code ladder and the spec ladder agree,
and both produce the deduplicated union. -/
theorem retrieve_candidates_eq_fallback_ladder_witness :
    retrieve_candidates ladder_search [1] "paper_1" (some "section_a") 5 (1/2) =
      fallback_ladder_spec ladder_search [1] "paper_1" (some "section_a") 5 (1/2)
  ∧ retrieve_candidates ladder_search [1] "paper_1" (some "section_a") 5 (1/2) =
      Except.ok [rec_a, rec_b, rec_c] :=
  ⟨retrieve_candidates_eq_fallback_ladder ladder_search [1] "paper_1" (some "section_a") 5 (1/2)
      (by intro s hs; simp only [Option.some.injEq] at hs; subst hs; decide),
    rfl⟩

/-- C7: content not exceeding the 1500-character budget is emitted unchanged;
over-budget content is cut at the last period of its 1500-character head
whenever that period lies past 70 percent of the budget (position 1050),
keeping the period, and hard-cut at 1500 characters when no period lies past
that point; in either over-budget case an ellipsis marker is appended. -/
theorem truncation_sentence_boundary (content : List Char) :
    (content.length ≤ max_chunk_chars → truncate_chunk_content content = content)
  ∧ (max_chunk_chars < content.length →
      (∀ i : Nat, (content.take max_chunk_chars)[i]? = some '.' →
          (∀ j, i < j → (content.take max_chunk_chars)[j]? ≠ some '.') →
          1050 < i →
          truncate_chunk_content content = content.take (i + 1) ++ ['.', '.', '.'])
    ∧ ((∀ j : Nat, 1050 < j → (content.take max_chunk_chars)[j]? ≠ some '.') →
        truncate_chunk_content content = content.take max_chunk_chars ++ ['.', '.', '.'])) := by
  refine ⟨fun hle => ?_, fun hgt => ⟨fun i hdot hlast h1050 => ?_, fun hno => ?_⟩⟩
  · rw [truncate_chunk_content, if_neg (by omega)]
  · have hfind : rfind_dot (content.take max_chunk_chars) = some i :=
      rfind_dot_eq_some _ i hdot hlast
    have hilen : i < (content.take max_chunk_chars).length := by
      by_contra hge
      rw [List.getElem?_eq_none (by omega)] at hdot
      cases hdot
    have hi1500 : i < max_chunk_chars := by
      rw [List.length_take] at hilen
      omega
    rw [truncate_chunk_content, if_pos hgt, last_period_index, hfind]
    dsimp only
    rw [if_pos (by rw [truncation_guard_chars]; exact_mod_cast h1050)]
    rw [Int.toNat_natCast, List.take_take, Nat.min_eq_left (by omega)]
  · rw [truncate_chunk_content, if_pos hgt, last_period_index]
    cases hf : rfind_dot (content.take max_chunk_chars) with
    | none =>
      dsimp only
      rw [if_neg (by decide)]
    | some i =>
      have hi := rfind_dot_mem _ i hf
      have hle2 : i ≤ 1050 := by
        by_contra hgt2
        exact hno i (by omega) hi.1
      dsimp only
      rw [if_neg (by rw [truncation_guard_chars]; exact_mod_cast not_lt.mpr hle2)]

/-- Witness for C7: a 1501-character content with no period at all is
hard-truncated to 1500 characters plus the ellipsis marker. -/
theorem truncation_sentence_boundary_witness :
    truncate_chunk_content long_content =
      long_content.take max_chunk_chars ++ ['.', '.', '.'] :=
  (truncation_sentence_boundary long_content).2
    (by rw [long_content, List.length_replicate]; norm_num [max_chunk_chars]) |>.2
    (by
      intro j hj
      rw [long_content, List.take_replicate, List.getElem?_replicate]
      split
      · simp
      · simp)

/-- C8: a recognized paper format with an unknown (or absent) section falls
back to that format's generic descriptor; an unrecognized paper format falls
back to the fully generic query of topics and difficulty; and every query
ends with the difficulty clause, so the builder never returns a
descriptor-free string and, being a total function, never raises. -/
theorem build_rag_query_fallbacks (pf : String) (sec : Option String)
    (topics : Option (List String)) (diff : String) :
    (pf = "paper_1" →
        sec ∉ ([some "section_a", some "section_b", some "section_c"] : List (Option String)) →
        build_rag_query pf sec topics diff = String.intercalate " "
          (["GCE O-Level English Paper 1 Writing examination",
            "Writing skills grammar situational continuous"]
            ++ topic_parts topics ++ [difficulty_part diff]))
  ∧ (pf = "paper_2" →
        sec ∉ ([some "section_a", some "section_b", some "section_c"] : List (Option String)) →
        build_rag_query pf sec topics diff = String.intercalate " "
          (["GCE O-Level English Paper 2 Comprehension reading",
            "Comprehension inference summary vocabulary analysis"]
            ++ topic_parts topics ++ [difficulty_part diff]))
  ∧ (pf = "oral" →
        sec ∉ ([some "reading_aloud", some "sbc", some "conversation"] : List (Option String)) →
        build_rag_query pf sec topics diff = String.intercalate " "
          (["GCE O-Level English Oral Communication spoken",
            "Speaking oral reading conversation discussion"]
            ++ topic_parts topics ++ [difficulty_part diff]))
  ∧ (pf ∉ (["paper_1", "paper_2", "oral"] : List String) →
        build_rag_query pf sec topics diff =
          String.intercalate " " (topic_parts topics ++ [difficulty_part diff]))
  ∧ (∃ front : List String,
        build_rag_query pf sec topics diff =
          String.intercalate " " (front ++ [difficulty_part diff])) := by
  refine ⟨fun hpf hsec => ?_, fun hpf hsec => ?_, fun hpf hsec => ?_, fun hpf => ?_,
    ⟨format_parts pf sec ++ topic_parts topics, by rw [build_rag_query, List.append_assoc]⟩⟩
  · subst hpf
    simp only [List.mem_cons, List.mem_singleton, not_or] at hsec
    obtain ⟨h1, h2, h3, -⟩ := hsec
    rw [build_rag_query, format_parts]
    rw [if_pos rfl, if_neg h1, if_neg h2, if_neg h3]
  · subst hpf
    simp only [List.mem_cons, List.mem_singleton, not_or] at hsec
    obtain ⟨h1, h2, h3, -⟩ := hsec
    rw [build_rag_query, format_parts]
    rw [if_neg (by decide), if_pos rfl, if_neg h1, if_neg h2, if_neg h3]
  · subst hpf
    simp only [List.mem_cons, List.mem_singleton, not_or] at hsec
    obtain ⟨h1, h2, h3, -⟩ := hsec
    rw [build_rag_query, format_parts]
    rw [if_neg (by decide), if_neg (by decide), if_pos rfl, if_neg h1, if_neg h2, if_neg h3]
  · simp only [List.mem_cons, List.mem_singleton, not_or] at hpf
    obtain ⟨h1, h2, h3, -⟩ := hpf
    rw [build_rag_query, format_parts]
    rw [if_neg h1, if_neg h2, if_neg h3]
    rfl

/-- Witness for C8: `paper_1` with an unrecognized section uses the generic
paper-1 descriptor. -/
theorem build_rag_query_fallbacks_witness :
    build_rag_query "paper_1" (some "weird") none "standard" = String.intercalate " "
      (["GCE O-Level English Paper 1 Writing examination",
        "Writing skills grammar situational continuous"]
        ++ topic_parts none ++ [difficulty_part "standard"]) :=
  (build_rag_query_fallbacks "paper_1" (some "weird") none "standard").1 rfl (by decide)

/-- C9 amended: the scorer updates its input records in place — after the
call each input record is exactly `score_chunk` of its pre-call state, which
preserves the six original fields, adds an `adjusted_similarity` entry, and
the returned list is built from those same records. -/
theorem scorer_in_place_update_shape (cy : Int) (store : List ChunkDict)
    (ts : Option String) (tf : String) :
    scorer_post_store cy store ts tf = store.map (score_chunk cy ts tf)
  ∧ ∀ c : ChunkDict,
      (score_chunk cy ts tf c).content = c.content
    ∧ (score_chunk cy ts tf c).paper_type = c.paper_type
    ∧ (score_chunk cy ts tf c).«section» = c.«section»
    ∧ (score_chunk cy ts tf c).year = c.year
    ∧ (score_chunk cy ts tf c).source_file = c.source_file
    ∧ (score_chunk cy ts tf c).similarity = c.similarity
    ∧ (score_chunk cy ts tf c).adjusted_similarity.isSome = true :=
  ⟨rfl, fun _ => ⟨rfl, rfl, rfl, rfl, rfl, rfl, rfl⟩⟩

end Rag
